import Mathlib

/-!
Verification of the BannerLord banner composition and layout subsystem.

This file gives a shallow embedding of the deterministic core of the
repository:

* `src/controlnet_generator.py` — `ControlNetBannerGenerator.create_control_image`
  (the layout planner: border / divider / text-area rectangles drawn onto a
  blank control image);
* `src/banner_compositor.py` — `BannerCompositor.add_text_to_banner`
  (text rendering: copy the background, resolve a position, draw shadow and
  main passes), `export_with_metadata` and `load_from_metadata`
  (metadata round-trip);
* `src/bannerlord.py` — `BannerLord.parse_design_response`
  (extract the first-brace/last-brace substring of the advisor response and
  parse it as JSON, else return a fixed default structure).

Python integers are embedded as `Int`; Python floor division `//` is
`Int.ediv` (they agree because every divisor in the source is a positive
literal).  External libraries are modelled at their interface:

* PIL images are `PImage` (width, height, and a pixel map); `Image.new`
  rejects negative sizes with a `ValueError` and accepts zero sizes;
  drawing primitives clip to the canvas and never fail, so a drawn control
  image is modelled as its dimensions plus the ordered list of drawn
  rectangles, each tagged with the role the spec assigns to that draw call.
* Glyph rasterisation is environment data (font files, FreeType), so the
  renderer is parametrised by a `Raster` oracle providing `textbbox` metrics
  and an ink function; `ImageDraw.text` mutates only pixels, never the
  image's size, and `draw.textbbox(xy, t)` is `xy` plus `textbbox((0,0), t)`
  for the default top-left anchor.
* The Python heap is a `Store` (list of images); `Image.copy` appends a
  fresh image, and draws update only the fresh image, which lets the
  no-mutation contract of the compositor be stated and checked.
* The filesystem is a partial map from paths to files; saving a PNG and
  reopening it is lossless for RGB images, so `save`/`open` store and
  return the image value itself.
* `json.dump` followed by `json.load` is the identity on JSON-representable
  documents, so the metadata document is modelled structurally
  (`MetaDoc`), with the layer list carried verbatim.
* `json.loads` inside `parse_design_response` is an abstract parameter
  `loads : String → Option JVal`; its documented behaviour on the concrete
  strings a theorem needs is taken as a hypothesis there.
-/

/-- Python floor division `a // b`.  For a positive divisor, Python's floor
division coincides with Euclidean division, which is `Int` division `/`. -/
def pydiv (a b : Int) : Int := a / b

/-! ## Layout planner: `ControlNetBannerGenerator.create_control_image` -/

/-- A rectangle `[x0, y0, x1, y1]` as passed to PIL drawing primitives. -/
structure Rect where
  x0 : Int
  y0 : Int
  x1 : Int
  y1 : Int
deriving DecidableEq, Repr

/-- The role of a drawn region, following the spec's names for the three
kinds of draw call in `create_control_image`: the outer border rectangle,
the vertical divider lines, and the text-area rectangle. -/
inductive Role where
  | guidanceBorder
  | guidanceDivider
  | textArea
deriving DecidableEq, Repr

/-- The fixed `padding = 50` constant of `create_control_image`. -/
def padding : Int := 50

/-- The text-area rectangle chosen by the `if text_position == ...` chain of
`create_control_image` (src/controlnet_generator.py lines 129-156).  An
unrecognised position falls into the final `else` branch. -/
def text_region (width height : Int) (text_position : String) : Rect :=
  if text_position = "center" then
    ⟨pydiv width 4, pydiv height 3, pydiv (3 * width) 4, pydiv (2 * height) 3⟩
  else if text_position = "left" then
    ⟨padding, pydiv height 4, pydiv width 2 - padding, pydiv (3 * height) 4⟩
  else if text_position = "right" then
    ⟨pydiv width 2 + padding, pydiv height 4, width - padding, pydiv (3 * height) 4⟩
  else if text_position = "top" then
    ⟨padding, padding, width - padding, pydiv height 3⟩
  else if text_position = "bottom" then
    ⟨padding, pydiv (2 * height) 3, width - padding, height - padding⟩
  else
    ⟨pydiv width 4, pydiv height 3, pydiv (3 * width) 4, pydiv (2 * height) 3⟩

/-- The border and divider draw calls selected by the
`if layout_type == ...` chain of `create_control_image`
(src/controlnet_generator.py lines 112-126).  A divider line
`draw.line([x, 0, x, height])` is the degenerate rectangle with
`x0 = x1 = x`.  An unrecognised layout type draws nothing here. -/
def layout_regions (width height : Int) (layout_type : String) : List (Role × Rect) :=
  if layout_type = "minimal" then
    [(Role.guidanceBorder, ⟨0, 0, width - 1, height - 1⟩)]
  else if layout_type = "geometric" then
    [(Role.guidanceBorder, ⟨0, 0, width - 1, height - 1⟩),
     (Role.guidanceDivider, ⟨pydiv width 3, 0, pydiv width 3, height⟩),
     (Role.guidanceDivider, ⟨pydiv (2 * width) 3, 0, pydiv (2 * width) 3, height⟩)]
  else if layout_type = "split" then
    [(Role.guidanceBorder, ⟨0, 0, width - 1, height - 1⟩),
     (Role.guidanceDivider, ⟨pydiv width 2, 0, pydiv width 2, height⟩)]
  else
    []

/-- All draw calls of `create_control_image` in source order: the
layout-dependent regions, then the single text-area rectangle. -/
def control_regions (width height : Int) (text_position layout_type : String) :
    List (Role × Rect) :=
  layout_regions width height layout_type ++
    [(Role.textArea, text_region width height text_position)]

/-- Error raised by the PIL layer.  `Image.new` raises `ValueError` when a
dimension is negative. -/
inductive PilError where
  | valueError
deriving DecidableEq, Repr

/-- A control image: its dimensions plus the ordered draw calls made on it. -/
structure ControlImage where
  width : Int
  height : Int
  regions : List (Role × Rect)
deriving DecidableEq, Repr

/-- `ControlNetBannerGenerator.create_control_image`
(src/controlnet_generator.py lines 88-161).  The source performs no
dimension validation of its own; `Image.new('RGB', (width, height))`
raises `ValueError` for a negative dimension and succeeds otherwise
(including zero sizes).  The subsequent `draw.rectangle` / `draw.line`
calls clip to the canvas and never fail. -/
def create_control_image (width height : Int) (text_position layout_type : String) :
    Except PilError ControlImage :=
  if width < 0 ∨ height < 0 then
    Except.error PilError.valueError
  else
    Except.ok ⟨width, height, control_regions width height text_position layout_type⟩

/-- A rectangle lies fully inside the canvas `[0,width] × [0,height]`,
with its corners in drawing order. -/
def rect_in_canvas (width height : Int) (r : Rect) : Prop :=
  0 ≤ r.x0 ∧ 0 ≤ r.y0 ∧ r.x0 ≤ r.x1 ∧ r.y0 ≤ r.y1 ∧ r.x1 ≤ width ∧ r.y1 ≤ height

instance (width height : Int) (r : Rect) : Decidable (rect_in_canvas width height r) := by
  unfold rect_in_canvas; infer_instance

/-- The rectangles of the text-area draw calls among a region list. -/
def text_regions_of (rs : List (Role × Rect)) : List Rect :=
  rs.filterMap (fun rr => if rr.1 = Role.textArea then some rr.2 else none)

/-! ## Lemmas about the layout planner -/

/-- Every border or divider rectangle fits inside any canvas with
positive dimensions. -/
theorem layout_regions_in_canvas (width height : Int) (layout_type : String)
    (hw : 1 ≤ width) (hh : 1 ≤ height) :
    ∀ rr ∈ layout_regions width height layout_type, rect_in_canvas width height rr.2 := by
  intro rr hrr
  unfold layout_regions at hrr
  split_ifs at hrr <;> fin_cases hrr <;>
    (simp only [rect_in_canvas, pydiv]; omega)

/-- The text-area rectangle fits inside any canvas of width at least 200
and height at least 150, whatever the position string is. -/
theorem text_region_in_canvas (width height : Int) (text_position : String)
    (hw : 200 ≤ width) (hh : 150 ≤ height) :
    rect_in_canvas width height (text_region width height text_position) := by
  unfold text_region rect_in_canvas pydiv padding
  split_ifs <;> dsimp only [] <;> omega

/-- The layout-dependent draw calls contain no text-area region. -/
theorem text_regions_of_layout (width height : Int) (layout_type : String) :
    text_regions_of (layout_regions width height layout_type) = [] := by
  unfold layout_regions text_regions_of
  split_ifs <;> rfl

/-- The draw calls of `create_control_image` contain exactly the one
text-area rectangle chosen by `text_region`. -/
theorem text_regions_of_control (width height : Int) (text_position layout_type : String) :
    text_regions_of (control_regions width height text_position layout_type) =
      [text_region width height text_position] := by
  unfold control_regions
  rw [text_regions_of, List.filterMap_append]
  rw [← text_regions_of, text_regions_of_layout]
  rfl

/-- Whether an `Except` computation succeeded. -/
def isOkE {ε α : Type} : Except ε α → Bool
  | Except.ok _ => true
  | Except.error _ => false

/-! ## Claim C2 -/

/-- C2, counterexample: the claim says every `width ≤ 0` fails with an
`InvalidDimensions` error, but `create_control_image` performs no dimension
validation: at `width = 0, height = 0` it succeeds and returns an empty
control image. -/
theorem C2_counterexample :
    isOkE (create_control_image 0 0 "center" "minimal") = true := by
  decide

/-- C2, amended: `create_control_image` performs no dimension validation of
its own.  Width and height `≥ 0` (zero included) always succeed, whatever
the layout-style and text-position strings are; a negative width or height
fails, with the image library's `ValueError` rather than a structured
`InvalidDimensions` error. -/
theorem C2_create_control_image_dimension_policy (w h : Int) (pos layout : String) :
    (0 ≤ w → 0 ≤ h → isOkE (create_control_image w h pos layout) = true) ∧
    (w < 0 ∨ h < 0 →
      create_control_image w h pos layout = Except.error PilError.valueError) := by
  constructor
  · intro hw hh
    unfold create_control_image
    rw [if_neg (by omega)]
    rfl
  · intro hneg
    unfold create_control_image
    rw [if_pos hneg]

/-- C2, witness for the amended theorem at concrete inputs. -/
theorem C2_witness :
    (isOkE (create_control_image 1024 512 "left" "geometric") = true) ∧
    (create_control_image (-3) 512 "center" "minimal" =
      Except.error PilError.valueError) :=
  ⟨(C2_create_control_image_dimension_policy 1024 512 "left" "geometric").1
      (by decide) (by decide),
   (C2_create_control_image_dimension_policy (-3) 512 "center" "minimal").2
      (Or.inl (by decide))⟩

/-! ## Claim C3 -/

/-- C3, counterexample: the claim asserts containment for every positive
width and height, but at `width = height = 40` with `text_position = "left"`
the fixed `padding = 50` produces the rectangle `[50, 10, -30, 30]`, which
is not inside the canvas (and is not even corner-ordered). -/
theorem C3_counterexample :
    ¬ (∀ rr ∈ control_regions 40 40 "left" "minimal",
        rect_in_canvas 40 40 rr.2) := by
  decide

/-- C3, amended: for canvases of width at least `200` and height at least
`150` (large enough that the fixed `padding = 50` text boxes fit, for every
text-position string), every region drawn by `create_control_image` lies
inside `[0,width] × [0,height]`, and exactly one drawn region is the
text-area rectangle. -/
theorem C3_regions_contained_one_text_area (w h : Int) (pos layout : String)
    (hw : 200 ≤ w) (hh : 150 ≤ h)
    (_hl : layout = "minimal" ∨ layout = "geometric" ∨ layout = "split") :
    (∀ rr ∈ control_regions w h pos layout, rect_in_canvas w h rr.2) ∧
    (text_regions_of (control_regions w h pos layout)).length = 1 := by
  constructor
  · intro rr hrr
    unfold control_regions at hrr
    rcases List.mem_append.mp hrr with hmem | hmem
    · exact layout_regions_in_canvas w h layout (by omega) (by omega) rr hmem
    · fin_cases hmem
      exact text_region_in_canvas w h pos hw hh
  · rw [text_regions_of_control]
    rfl

/-- C3, witness for the amended theorem at concrete inputs. -/
theorem C3_witness :
    (∀ rr ∈ control_regions 1024 512 "bottom" "split",
      rect_in_canvas 1024 512 rr.2) ∧
    (text_regions_of (control_regions 1024 512 "bottom" "split")).length = 1 :=
  C3_regions_contained_one_text_area 1024 512 "bottom" "split"
    (by decide) (by decide) (Or.inr (Or.inr rfl))

/-! ## Claim C5 -/

/-- C5: an unrecognised text-position string falls through the whole
`if`/`elif` chain into the final `else`, whose rectangle is literally the
`center` one: horizontal `[w/4, 3w/4]`, vertical `[h/3, 2h/3]`.  The drawn
text-area region is therefore exactly the `center` region, for every layout
style; no error is raised. -/
theorem C5_unknown_position_is_center (w h : Int) (pos layout : String)
    (_hw : 0 < w) (_hh : 0 < h)
    (hpos : pos ≠ "left" ∧ pos ≠ "center" ∧ pos ≠ "right" ∧
            pos ≠ "top" ∧ pos ≠ "bottom") :
    text_regions_of (control_regions w h pos layout) =
      [⟨pydiv w 4, pydiv h 3, pydiv (3 * w) 4, pydiv (2 * h) 3⟩] ∧
    text_region w h pos = text_region w h "center" := by
  obtain ⟨h1, h2, h3, h4, h5⟩ := hpos
  have hfall : text_region w h pos =
      ⟨pydiv w 4, pydiv h 3, pydiv (3 * w) 4, pydiv (2 * h) 3⟩ := by
    unfold text_region
    rw [if_neg h2, if_neg h1, if_neg h3, if_neg h4, if_neg h5]
  constructor
  · rw [text_regions_of_control, hfall]
  · rw [hfall]
    unfold text_region
    rw [if_pos rfl]

/-- C5, witness at the concrete unknown position string `"middle"`. -/
theorem C5_witness :
    text_regions_of (control_regions 1024 512 "middle" "minimal") =
      [⟨pydiv 1024 4, pydiv 512 3, pydiv (3 * 1024) 4, pydiv (2 * 512) 3⟩] ∧
    text_region 1024 512 "middle" = text_region 1024 512 "center" :=
  C5_unknown_position_is_center 1024 512 "middle" "minimal"
    (by decide) (by decide)
    (by refine ⟨?_, ?_, ?_, ?_, ?_⟩ <;> decide)

/-! ## Text renderer: `BannerCompositor.add_text_to_banner`

The renderer is embedded over a heap of images (`Store`), because the claim
about it is a no-mutation contract: the Python function receives a mutable
`Image` object, copies it, and draws only on the copy.  Glyph metrics and
rasterised ink are environment data (font files and FreeType), so they are
supplied by a `Raster` oracle; the oracle's `bbox` models
`draw.textbbox((0, 0), text, font)` for the font the ladder of `_get_font`
resolves for a size and family, and `ink` models the pixel effect of one
`draw.text` call.  `draw.text` never changes an image's size. -/

/-- A PIL raster image: dimensions and a pixel map. -/
structure PImage where
  width : Int
  height : Int
  pix : Int → Int → Nat

/-- The image a `getD` lookup falls back to; never reached for valid
handles. -/
def emptyImage : PImage := ⟨0, 0, fun _ _ => 0⟩

/-- The Python heap restricted to images: object handles are list indices. -/
abbrev Store := List PImage

/-- The arguments of one `draw.text` call. -/
structure DrawCall where
  pos : Int × Int
  text : String
  font_size : Int
  font_family : String
  fill : String
  stroke_width : Int
  stroke_fill : String

/-- The environment-supplied rasteriser: text metrics and ink. -/
structure Raster where
  bbox : Int → String → String → Rect
  ink : DrawCall → (Int → Int → Nat) → (Int → Int → Nat)

/-- One `draw.text` call: updates the pixels of the target image only;
the image's dimensions are untouched. -/
def drawText (o : Raster) (img : PImage) (call : DrawCall) : PImage :=
  { img with pix := o.ink call img.pix }

/-- The auto-centred position computed by `add_text_to_banner` when
`position is None` (src/banner_compositor.py lines 92-101): the bounding
box of the text at the origin is measured, and the position is
`((width - text_width) // 2, (height - text_height) // 2)`. -/
def auto_position (width height : Int) (bb : Rect) : Int × Int :=
  (pydiv (width - (bb.x1 - bb.x0)) 2, pydiv (height - (bb.y1 - bb.y0)) 2)

/-- The bounding box of the ink drawn by `draw.text(pos, text, font)`: for
PIL's default top-left anchor, `draw.textbbox(pos, ...)` is
`draw.textbbox((0, 0), ...)` translated by `pos`. -/
def rendered_bbox (pos : Int × Int) (bb : Rect) : Rect :=
  ⟨pos.1 + bb.x0, pos.2 + bb.y0, pos.1 + bb.x1, pos.2 + bb.y1⟩

/-- The renderer error taxonomy of the specification.  The source contains
no failure path at all (see `C6_counterexample`): the error constructor is
present only so that the specification's error claims can be stated. -/
inductive RenderError where
  | unrenderableText
deriving DecidableEq, Repr

/-- `BannerCompositor.add_text_to_banner` (src/banner_compositor.py lines
53-126): copy the background, resolve the position (auto-centring when
`position is None`), draw the shadow pass at offset `(+3, +3)` in
semi-transparent black when `shadow` is set, then draw the main pass with
the requested fill and stroke.  The copy is a fresh heap object; the
original background is never drawn on.  The `alignment` argument is
accepted and ignored, exactly as in the source. -/
def add_text_to_banner (o : Raster) (st : Store) (background : Nat)
    (text : String) (position : Option (Int × Int)) (font_size : Int)
    (font_family : String) (color : String) (alignment : String)
    (stroke_width : Int) (stroke_color : String) (shadow : Bool) :
    Except RenderError (Store × Nat) :=
  let bgImg := st.getD background emptyImage
  let img := bgImg
  let bb := o.bbox font_size font_family text
  let pos :=
    match position with
    | some p => p
    | none => auto_position img.width img.height bb
  let img := if shadow then
      drawText o img ⟨(pos.1 + 3, pos.2 + 3), text, font_size, font_family,
        "#00000080", stroke_width, "#00000080"⟩
    else img
  let img := drawText o img ⟨pos, text, font_size, font_family, color,
      stroke_width, stroke_color⟩
  Except.ok (st ++ [img], st.length)

/-- A trivial rasteriser for concrete witnesses: zero metrics, identity
ink. -/
def oracle0 : Raster := ⟨fun _ _ _ => ⟨0, 0, 0, 0⟩, fun _ p => p⟩

/-- A concrete 800 × 400 background for witnesses. -/
def img800 : PImage := ⟨800, 400, fun _ _ => 0⟩

/-! ## Claim C8 -/

/-- C8: `add_text_to_banner` copies the background before drawing
(`img = background.copy()` on line 85), so for every rasteriser, heap and
argument list it returns a freshly allocated canvas (the new index
`st.length`, distinct from every existing handle) and leaves every existing
image — in particular the input background, with all its pixels —
exactly as it was. -/
theorem C8_add_text_leaves_input_unchanged (o : Raster) (st : Store) (bg : Nat)
    (text : String) (position : Option (Int × Int)) (font_size : Int)
    (font_family color alignment : String) (stroke_width : Int)
    (stroke_color : String) (shadow : Bool) (h : bg < st.length) :
    ((add_text_to_banner o st bg text position font_size font_family color
        alignment stroke_width stroke_color shadow).map
        (fun r => r.1.get? bg) = Except.ok (st.get? bg)) ∧
    ((add_text_to_banner o st bg text position font_size font_family color
        alignment stroke_width stroke_color shadow).map
        (fun r => r.2) = Except.ok st.length) ∧
    bg ≠ st.length := by
  refine ⟨?_, ?_, by omega⟩
  · dsimp only [add_text_to_banner, Except.map]
    rw [List.get?_append h]
  · rfl

/-- C8, witness at a concrete rasteriser, heap and background. -/
theorem C8_witness :
    ((add_text_to_banner oracle0 [img800] 0 "HELLO" none 72 "Sans" "#FFFFFF"
        "center" 2 "#000000" true).map
        (fun r => r.1.get? 0) = Except.ok (([img800] : Store).get? 0)) ∧
    ((add_text_to_banner oracle0 [img800] 0 "HELLO" none 72 "Sans" "#FFFFFF"
        "center" 2 "#000000" true).map
        (fun r => r.2) = Except.ok ([img800] : Store).length) ∧
    (0 : Nat) ≠ ([img800] : Store).length :=
  C8_add_text_leaves_input_unchanged oracle0 [img800] 0 "HELLO" none 72 "Sans"
    "#FFFFFF" "center" 2 "#000000" true (by decide)

/-! ## Claim C6 -/

/-- C6, counterexample: the claim says rendering fails with
`UnrenderableText` exactly when the text is empty after trimming, but
`add_text_to_banner` contains no emptiness check of any kind: on the empty
string it succeeds (PIL happily measures and draws an empty string,
producing no ink). -/
theorem C6_counterexample :
    isOkE (add_text_to_banner oracle0 [img800] 0 "" none 48 "Sans" "#FFFFFF"
      "center" 2 "#000000" true) = true := by
  rfl

/-- C6, amended: `add_text_to_banner` never fails, for empty and non-empty
text alike: it always returns a fresh canvas with the background's
dimensions.  (The font ladder of `_get_font` ends in
`ImageFont.load_default()`, so font resolution also never fails; an empty
string renders as an empty overlay rather than raising.) -/
theorem C6_add_text_never_fails (o : Raster) (st : Store) (bg : Nat)
    (text : String) (position : Option (Int × Int)) (font_size : Int)
    (font_family color alignment : String) (stroke_width : Int)
    (stroke_color : String) (shadow : Bool) :
    ∃ img : PImage,
      add_text_to_banner o st bg text position font_size font_family color
        alignment stroke_width stroke_color shadow =
          Except.ok (st ++ [img], st.length) ∧
      img.width = (st.getD bg emptyImage).width ∧
      img.height = (st.getD bg emptyImage).height := by
  cases shadow <;> exact ⟨_, rfl, rfl, rfl⟩

/-! ## Claim C4 -/

/-- C4: the auto-centring of `add_text_to_banner` (used for its main draw
pass whenever `position is None`) anchors the text's top-left layout origin
at `((W - text_width) // 2, (H - text_height) // 2)` without subtracting
the bounding box's own origin offset `(bb.x0, bb.y0)`, so the drawn
bounding box is centred only up to that offset: its doubled vertical
centre exceeds the doubled canvas centre `2 * 200 = 400` by at least
`2 * bb.y0 - 1`.  Whenever the font's origin bbox has `bb.y0 ≥ 2` the
centre is off by more than the claimed half-pixel tolerance.  For every
TrueType font in the `_get_font` ladder this offset is large: for DejaVu
Sans Bold at 48 px, capitals start about `(1901 - 1493) * 48 / 2048 ≈ 10`
pixels below the layout top, so `bb.y0 ≈ 10` for the text `"TEST"`. -/
theorem C4_auto_position_not_bbox_centered (bb : Rect) (hy : 2 ≤ bb.y0) :
    1 < ((rendered_bbox (auto_position 800 400 bb) bb).y0 +
         (rendered_bbox (auto_position 800 400 bb) bb).y1) - 2 * 200 := by
  simp only [rendered_bbox, auto_position, pydiv]
  omega

/-- C4, witness: representative `textbbox((0,0), "TEST", size 48)` metrics
for the ladder's DejaVu Sans Bold (origin offset about `(2, 10)`); the
doubled drawn centre lands 20 half-pixels below the canvas centre. -/
theorem C4_witness :
    1 < ((rendered_bbox (auto_position 800 400 ⟨2, 10, 131, 45⟩)
            ⟨2, 10, 131, 45⟩).y0 +
         (rendered_bbox (auto_position 800 400 ⟨2, 10, 131, 45⟩)
            ⟨2, 10, 131, 45⟩).y1) - 2 * 200 :=
  C4_auto_position_not_bbox_centered ⟨2, 10, 131, 45⟩ (by decide)

/-! ## Metadata export and import: `export_with_metadata` / `load_from_metadata`

The metadata document is the JSON object written by `export_with_metadata`
(src/banner_compositor.py lines 192-201).  `json.dump` followed by
`json.load` is the identity on such documents, so the document is modelled
structurally, with the layer list carried verbatim (a layer's unset
`position` is JSON `null` both ways).  The filesystem is a partial map from
paths to files; PNG encoding of an RGB image is lossless, so saving stores
the image value and `Image.open` returns it. -/

/-- One text layer, with the fields the repository's layer dictionaries
carry (src/bannerlord.py lines 184-194).  `position = none` is the unset
(auto-centre) case, serialised as JSON `null`. -/
structure Layer where
  text : String
  position : Option (Int × Int)
  font_size : Int
  font_family : String
  color : String
  alignment : String
  stroke_width : Int
  stroke_color : String
  shadow : Bool
deriving DecidableEq, Repr

/-- A value in the metadata JSON object. -/
inductive MetaVal where
  | num (n : Int)
  | str (s : String)
  | layerList (ls : List Layer)
deriving DecidableEq, Repr

/-- The metadata JSON object, as a key-value list so that documents with
missing fields can be expressed. -/
abbrev MetaDoc := List (String × MetaVal)

/-- Python dict lookup `metadata[key]`, as an optional result. -/
def mfind : MetaDoc → String → Option MetaVal
  | [], _ => none
  | (k, v) :: rest, key => if k = key then some v else mfind rest key

/-- A file on disk: a saved raster image or a metadata document. -/
inductive FsFile where
  | image (img : PImage)
  | doc (d : MetaDoc)

/-- The filesystem: a partial map from paths to files. -/
abbrev FS := String → Option FsFile

/-- Writing a file. -/
def fs_insert (fs : FS) (p : String) (f : FsFile) : FS :=
  fun q => if q = p then some f else fs q

/-- `BannerCompositor.export_with_metadata` (src/banner_compositor.py lines
173-207): save the background as `<output_path>_background.png`, then write
the metadata document `{width, height, background, text_layers}` to
`<output_path>_metadata.json`; return the two paths. -/
def export_with_metadata (fs : FS) (output_path : String) (background : PImage)
    (text_layers : List Layer) : FS × String × String :=
  let bg_path := output_path ++ "_background.png"
  let fs := fs_insert fs bg_path (FsFile.image background)
  let metadata : MetaDoc :=
    [("width", MetaVal.num background.width),
     ("height", MetaVal.num background.height),
     ("background", MetaVal.str bg_path),
     ("text_layers", MetaVal.layerList text_layers)]
  let metadata_path := output_path ++ "_metadata.json"
  let fs := fs_insert fs metadata_path (FsFile.doc metadata)
  (fs, bg_path, metadata_path)

/-- The Python exceptions `load_from_metadata` can raise, by site: opening
or JSON-decoding the metadata file, a missing dict key (`KeyError` carries
the key name), `Image.open` on a missing or non-image file, and a non-path
`background` value. -/
inductive LoadError where
  | ioError (path : String)
  | jsonDecodeError (path : String)
  | keyError (field : String)
  | typeError (field : String)
  | fileNotFound (path : String)
  | unidentifiedImage (path : String)

/-- `BannerCompositor.load_from_metadata` (src/banner_compositor.py lines
248-264): read and JSON-parse the metadata file, open
`metadata['background']` as an image, and return it with
`metadata['text_layers']`.  The `width` and `height` fields are never read,
and the layer list is returned without any validation. -/
def load_from_metadata (fs : FS) (metadata_path : String) :
    Except LoadError (PImage × MetaVal) :=
  match fs metadata_path with
  | none => Except.error (LoadError.ioError metadata_path)
  | some (FsFile.image _) => Except.error (LoadError.jsonDecodeError metadata_path)
  | some (FsFile.doc metadata) =>
    match mfind metadata "background" with
    | none => Except.error (LoadError.keyError "background")
    | some (MetaVal.str p) =>
      match fs p with
      | some (FsFile.image img) =>
        match mfind metadata "text_layers" with
        | none => Except.error (LoadError.keyError "text_layers")
        | some v => Except.ok (img, v)
      | some (FsFile.doc _) => Except.error (LoadError.unidentifiedImage p)
      | none => Except.error (LoadError.fileNotFound p)
    | some _ => Except.error (LoadError.typeError "background")

/-- Appending distinct suffixes to the same path yields distinct paths. -/
theorem append_background_ne_metadata (p : String) :
    p ++ "_background.png" ≠ p ++ "_metadata.json" := by
  intro hcontra
  have hd := congrArg String.data hcontra
  rw [String.data_append, String.data_append] at hd
  exact absurd (List.append_cancel_left hd) (by decide)

/-! ## Claim C1 -/

/-- C1: the metadata round-trip law.  Exporting a background and a layer
list and importing the written metadata yields exactly the background that
was saved (PNG re-encoding of an RGB image is lossless, so in particular
its width and height are those of the original) and the layer list
field-for-field as it was exported — `export_with_metadata` writes the
layers verbatim, with no layout resolution baked in, so a layer whose
`position` is unset (`None`/JSON `null`) is imported with `position` still
unset. -/
theorem C1_metadata_round_trip (fs : FS) (output_path : String) (bg : PImage)
    (layers : List Layer) :
    load_from_metadata (export_with_metadata fs output_path bg layers).1
        (export_with_metadata fs output_path bg layers).2.2 =
      Except.ok (bg, MetaVal.layerList layers) := by
  have hne := append_background_ne_metadata output_path
  dsimp only [export_with_metadata, load_from_metadata, fs_insert]
  rw [if_pos rfl]
  dsimp only [mfind]
  rw [if_neg (by decide), if_neg (by decide), if_pos rfl]
  dsimp only []
  rw [if_neg hne, if_pos rfl]
  dsimp only []
  rw [if_neg (by decide), if_neg (by decide), if_neg (by decide), if_pos rfl]

/-! ## Claim C9 -/

/-- A metadata document with no `width` field but with a valid `background`
reference and a `text_layers` field. -/
def doc_no_width : MetaDoc :=
  [("height", MetaVal.num 400),
   ("background", MetaVal.str "bg.png"),
   ("text_layers", MetaVal.layerList [])]

/-- A filesystem holding that document and the background image it
references. -/
def fs_no_width : FS := fun p =>
  if p = "md.json" then some (FsFile.doc doc_no_width)
  else if p = "bg.png" then some (FsFile.image img800)
  else none

/-- C9, counterexample: the claim says a metadata document missing any of
the required fields `width`, `height`, `background`, `text_layers` fails,
but `load_from_metadata` never reads `width` or `height`: on a document
with no `width` field it succeeds. -/
theorem C9_counterexample :
    load_from_metadata fs_no_width "md.json" =
      Except.ok (img800, MetaVal.layerList []) := by
  rfl

/-- C9, amended: `load_from_metadata` fails on a missing `background` field
(a `KeyError` naming that field), on a `background` path absent from the
filesystem (`FileNotFoundError` naming the path), and on a missing
`text_layers` field (a `KeyError` naming it) — these are the runtime's
exceptions, not a single structured `MalformedMetadata` error — while a
missing `width` or `height` field is never detected: when `background`
resolves and `text_layers` is present, the import succeeds regardless of
the other fields. -/
theorem C9_load_error_policy (fs : FS) (mdp : String) (metadata : MetaDoc)
    (hdoc : fs mdp = some (FsFile.doc metadata)) :
    (mfind metadata "background" = none →
      load_from_metadata fs mdp = Except.error (LoadError.keyError "background")) ∧
    (∀ p, mfind metadata "background" = some (MetaVal.str p) → fs p = none →
      load_from_metadata fs mdp = Except.error (LoadError.fileNotFound p)) ∧
    (∀ p img, mfind metadata "background" = some (MetaVal.str p) →
      fs p = some (FsFile.image img) → mfind metadata "text_layers" = none →
      load_from_metadata fs mdp = Except.error (LoadError.keyError "text_layers")) ∧
    (∀ p img v, mfind metadata "background" = some (MetaVal.str p) →
      fs p = some (FsFile.image img) → mfind metadata "text_layers" = some v →
      load_from_metadata fs mdp = Except.ok (img, v)) := by
  refine ⟨?_, ?_, ?_, ?_⟩
  · intro hbg
    unfold load_from_metadata
    rw [hdoc]
    dsimp only []
    rw [hbg]
  · intro p hbg hfile
    unfold load_from_metadata
    rw [hdoc]
    dsimp only []
    rw [hbg]
    dsimp only []
    rw [hfile]
  · intro p img hbg hfile hlay
    unfold load_from_metadata
    rw [hdoc]
    dsimp only []
    rw [hbg]
    dsimp only []
    rw [hfile]
    dsimp only []
    rw [hlay]
  · intro p img v hbg hfile hlay
    unfold load_from_metadata
    rw [hdoc]
    dsimp only []
    rw [hbg]
    dsimp only []
    rw [hfile]
    dsimp only []
    rw [hlay]

/-- A metadata document with no `background` field. -/
def doc_no_background : MetaDoc := [("width", MetaVal.num 800)]

/-- A filesystem holding only that document. -/
def fs_no_background : FS := fun p =>
  if p = "md2.json" then some (FsFile.doc doc_no_background) else none

/-- C9, witness for the amended theorem: a document with no `background`
field fails with a `KeyError` naming the field. -/
theorem C9_witness :
    load_from_metadata fs_no_background "md2.json" =
      Except.error (LoadError.keyError "background") :=
  (C9_load_error_policy fs_no_background "md2.json" doc_no_background rfl).1 rfl

/-! ## Advisor response parsing: `BannerLord.parse_design_response`

The brace-extraction logic (`response.find`, `response.rfind`, the slice)
is embedded concretely over the string's characters; `json.loads` is an
external library call and is an abstract parameter
`loads : String → Option JVal` (`none` models a raised
`JSONDecodeError`, caught by the bare `except`). -/

/-- A parsed JSON value as returned by `json.loads`. -/
inductive JVal where
  | str (s : String)
  | num (n : Int)
  | arr (xs : List JVal)
  | obj (fields : List (String × JVal))

/-- Key lookup in a parsed JSON object; `none` on non-objects. -/
def objLookup (v : JVal) (key : String) : Option JVal :=
  match v with
  | JVal.obj fields => assocFind fields key
  | _ => none
where
  assocFind : List (String × JVal) → String → Option JVal
    | [], _ => none
    | (k, w) :: rest, key => if k = key then some w else assocFind rest key

/-- The opening brace character. -/
def lbrace : Char := Char.ofNat 123

/-- The closing brace character. -/
def rbrace : Char := Char.ofNat 125

/-- Index of the first occurrence of a character, `-1` when absent:
Python's `str.find`. -/
def find_char : List Char → Char → Int
  | [], _ => -1
  | a :: t, c =>
    if a = c then 0
    else
      let r := find_char t c
      if r = -1 then -1 else r + 1

/-- Index of the last occurrence of a character, `-1` when absent:
Python's `str.rfind`. -/
def rfind_char : List Char → Char → Int
  | [], _ => -1
  | a :: t, c =>
    let r := rfind_char t c
    if r ≠ -1 then r + 1
    else if a = c then 0 else -1

/-- Python `response.find(c)`. -/
def py_find (s : String) (c : Char) : Int := find_char s.data c

/-- Python `response.rfind(c)`. -/
def py_rfind (s : String) (c : Char) : Int := rfind_char s.data c

/-- Python `s[a:b]` for the non-negative indices this program produces
(an empty string when `a ≥ b`). -/
def py_slice (s : String) (a b : Int) : String :=
  String.mk ((s.data.take b.toNat).drop a.toNat)

/-- The JSON-candidate substring located by `parse_design_response`
(src/bannerlord.py lines 68-72): from the first `'{'` to the last `'}'`
inclusive, provided `start != -1 and end != 0`. -/
def extract_json (response : String) : Option String :=
  let start := py_find response lbrace
  let stop := py_rfind response rbrace + 1
  if start ≠ -1 ∧ stop ≠ 0 then some (py_slice response start stop) else none

/-- The fixed fallback structure of `parse_design_response`
(src/bannerlord.py lines 78-85), with the raw text under `raw_response`. -/
def default_design (response : String) : JVal :=
  JVal.obj
    [("raw_response", JVal.str response),
     ("concept", JVal.str "See raw response"),
     ("colors", JVal.arr
        [JVal.str "#3498db", JVal.str "#2ecc71", JVal.str "#f39c12",
         JVal.str "#e74c3c", JVal.str "#ffffff"]),
     ("typography", JVal.str "Sans-serif, bold"),
     ("layout", JVal.str "center"),
     ("image_prompt", JVal.str "professional modern abstract background")]

/-- `BannerLord.parse_design_response` (src/bannerlord.py lines 56-85):
extract the brace-delimited substring and parse it; on any failure
(no braces, empty slice, or a `loads` error caught by the bare `except`)
return the fixed default structure. -/
def parse_design_response (loads : String → Option JVal) (response : String) :
    JVal :=
  match extract_json response with
  | some s =>
    match loads s with
    | some v => v
    | none => default_design response
  | none => default_design response

/-! ## Claim C7 -/

/-- C7: the parsing contract.  `parse_design_response` is a total function
(the bare `except` swallows every `json.loads` failure, and nothing after
it can raise): when the brace-delimited substring exists and parses, the
parsed value is returned as is; in every other case the fixed default
structure is returned, with the original response text preserved under the
`raw_response` key. -/
theorem C7_parse_design_contract (loads : String → Option JVal)
    (response : String) :
    (∀ s v, extract_json response = some s → loads s = some v →
      parse_design_response loads response = v) ∧
    (∀ s, extract_json response = some s → loads s = none →
      parse_design_response loads response = default_design response) ∧
    (extract_json response = none →
      parse_design_response loads response = default_design response) ∧
    objLookup (default_design response) "raw_response" =
      some (JVal.str response) := by
  refine ⟨?_, ?_, ?_, rfl⟩
  · intro s v hs hv
    unfold parse_design_response
    rw [hs]
    dsimp only []
    rw [hv]
  · intro s hs hv
    unfold parse_design_response
    rw [hs]
    dsimp only []
    rw [hv]
  · intro hs
    unfold parse_design_response
    rw [hs]

/-- C7, witness: a response with no braces together with a parser that
always fails takes the default branch, and the default carries the raw
text. -/
theorem C7_witness :
    parse_design_response (fun _ => none) "plain text advice" =
      default_design "plain text advice" ∧
    objLookup (default_design "plain text advice") "raw_response" =
      some (JVal.str "plain text advice") :=
  ⟨(C7_parse_design_contract (fun _ => none) "plain text advice").2.2.1 rfl,
   (C7_parse_design_contract (fun _ => none) "plain text advice").2.2.2⟩

/-! ## Claim C10 -/

/-- C10: no validation or defaulting of a successfully parsed object.  For
a response that is exactly the empty JSON object (so the brace-delimited
substring is `"{}"`, which `json.loads` parses to the empty object), the
result is the empty object verbatim: it contains none of the keys
`concept`, `colors`, `typography`, `layout`, `image_prompt`, and no
`raw_response` key. -/
theorem C10_parsed_object_verbatim (loads : String → Option JVal)
    (hload : loads "\x7b\x7d" = some (JVal.obj [])) :
    parse_design_response loads "\x7b\x7d" = JVal.obj [] ∧
    objLookup (parse_design_response loads "\x7b\x7d") "concept" = none ∧
    objLookup (parse_design_response loads "\x7b\x7d") "colors" = none ∧
    objLookup (parse_design_response loads "\x7b\x7d") "typography" = none ∧
    objLookup (parse_design_response loads "\x7b\x7d") "layout" = none ∧
    objLookup (parse_design_response loads "\x7b\x7d") "image_prompt" = none ∧
    objLookup (parse_design_response loads "\x7b\x7d") "raw_response" = none := by
  have hx : extract_json "\x7b\x7d" = some "\x7b\x7d" := rfl
  have hp : parse_design_response loads "\x7b\x7d" = JVal.obj [] := by
    unfold parse_design_response
    rw [hx]
    dsimp only []
    rw [hload]
  refine ⟨hp, ?_, ?_, ?_, ?_, ?_, ?_⟩ <;> rw [hp] <;> rfl

/-- C10, witness: a concrete `loads` behaving as `json.loads` does on
`"{}"`. -/
theorem C10_witness :
    parse_design_response
        (fun s => if s = "\x7b\x7d" then some (JVal.obj []) else none)
        "\x7b\x7d" = JVal.obj [] ∧
    objLookup (parse_design_response
        (fun s => if s = "\x7b\x7d" then some (JVal.obj []) else none)
        "\x7b\x7d") "concept" = none ∧
    objLookup (parse_design_response
        (fun s => if s = "\x7b\x7d" then some (JVal.obj []) else none)
        "\x7b\x7d") "colors" = none ∧
    objLookup (parse_design_response
        (fun s => if s = "\x7b\x7d" then some (JVal.obj []) else none)
        "\x7b\x7d") "typography" = none ∧
    objLookup (parse_design_response
        (fun s => if s = "\x7b\x7d" then some (JVal.obj []) else none)
        "\x7b\x7d") "layout" = none ∧
    objLookup (parse_design_response
        (fun s => if s = "\x7b\x7d" then some (JVal.obj []) else none)
        "\x7b\x7d") "image_prompt" = none ∧
    objLookup (parse_design_response
        (fun s => if s = "\x7b\x7d" then some (JVal.obj []) else none)
        "\x7b\x7d") "raw_response" = none :=
  C10_parsed_object_verbatim
    (fun s => if s = "\x7b\x7d" then some (JVal.obj []) else none) rfl
